import Mathlib

/-!
Verification of the session-driven download orchestration engine of a
Telegram media-download bot (single source file `bot.py`).  The Python
source is shallowly embedded in Lean: strings are lists of characters,
Python dictionaries with a fixed key set become structures with `Option`
fields (`none` models a missing key or a `None` value), numeric values are
rationals, fallible code returns `Except`, and the external collaborators
(the yt-dlp engine and the Telegram transport) are parameters (oracles) of
the embedded handlers.
-/

namespace Bot

/-- Python strings are modelled as lists of characters. -/
abbrev Str := List Char

/-- An FFmpeg post-processor entry of `ydl_opts` (bot.py 448-478). -/
structure PostProc where
  key : Str
  preferredcodec : Str
  preferredquality : Option Str
deriving DecidableEq, Repr

/-- The download request assembled by `download_file` (bot.py 404-478):
the `format` entry of `ydl_opts` (absent when no branch matched), the
post-processor list, and whether the conservative YouTube request-shaping
profile (constrained player client, throttled rate) was applied. -/
structure DownloadRequest where
  format : Option Str
  postprocessors : List PostProc
  conservativeProfile : Bool
deriving DecidableEq, Repr

/-- The sentinel exception `Exception("youtube_help_clicked")` raised by
`download_file` when the selector token is `youtube_help` (bot.py 439-440). -/
inductive DlSignal
| youtubeHelpClicked
deriving DecidableEq, Repr

/-- The capped composite format expression used for YouTube instead of an
unrestricted `best` (bot.py 434). -/
def ytCappedExpr : Str := "bv[height<=720]+ba/b[height<=720]".data

/-- The FFmpegExtractAudio post-processor spec with an optional
preferred quality (bot.py 448-478). -/
def ffmpegPP (codec : Str) (qual : Option Str) : PostProc :=
  ⟨"FFmpegExtractAudio".data, codec, qual⟩

/-- Resolution of a selector token into a download request, embedding the
`if`/`elif` chain of `download_file` (bot.py 431-478).  The resolver is a
pure function of the token and the session platform flag: it never
consults the extractor. -/
def resolveSelector (data : Str) (is_youtube : Bool) : Except DlSignal DownloadRequest :=
  if data = "best".data then
    if is_youtube then .ok ⟨some ytCappedExpr, [], is_youtube⟩
    else .ok ⟨some ("best".data), [], is_youtube⟩
  else if data = "worst".data then .ok ⟨some ("worst".data), [], is_youtube⟩
  else if data = "youtube_help".data then .error DlSignal.youtubeHelpClicked
  else if ("v_".data).isPrefixOf data then .ok ⟨some (data.drop 2), [], is_youtube⟩
  else if ("a_".data).isPrefixOf data then .ok ⟨some (data.drop 2), [], is_youtube⟩
  else if data = "audio_mp3_best".data then
    .ok ⟨some ("bestaudio/best".data), [ffmpegPP ("mp3".data) (some ("192".data))], is_youtube⟩
  else if data = "audio_mp3_128".data then
    .ok ⟨some ("bestaudio/best".data), [ffmpegPP ("mp3".data) (some ("128".data))], is_youtube⟩
  else if data = "audio_m4a".data then
    .ok ⟨some ("bestaudio/best".data), [ffmpegPP ("m4a".data) none], is_youtube⟩
  else if data = "audio_opus".data then
    .ok ⟨some ("bestaudio/best".data), [ffmpegPP ("opus".data) none], is_youtube⟩
  else .ok ⟨none, [], is_youtube⟩

/-! ## Raw format records and the format classifier (handle_url, bot.py 215-329) -/

/-- A raw format record returned by the extractor, restricted to the keys
`handle_url` reads.  A `none` field models both a missing key and a `None`
value, which the Python `dict.get` calls treat alike. -/
structure RawFormat where
  format_id : Option Str := none
  ext : Option Str := none
  filesize : Option ℚ := none
  filesize_approx : Option ℚ := none
  vcodec : Option Str := none
  acodec : Option Str := none
  height : Option ℕ := none
  fps : Option ℚ := none
  abr : Option ℚ := none
deriving DecidableEq, Repr

/-- The literal string `none` used by yt-dlp as the no-codec sentinel. -/
def noneStr : Str := "none".data

/-- Python truthiness of an optional string (`if not format_id`). -/
def pyTruthyStr : Option Str → Bool
  | none => false
  | some s => !s.isEmpty

/-- Python `a or b` on optional numbers: the second operand is taken when
the first is `None` or `0` (bot.py 228). -/
def pyOrQ : Option ℚ → Option ℚ → Option ℚ
  | some x, y => if x = 0 then y else some x
  | none, y => y

/-- Python truthiness of an optional number (`if filesize`). -/
def pyTruthyQ : Option ℚ → Bool
  | none => false
  | some x => decide (x ≠ 0)

/-- One mebibyte, the divisor used for size display (bot.py 242). -/
def MB : ℚ := 1024 * 1024

/-- Rounding to one decimal place, modelling Python `round(x, 1)` and the
`.1f` format specifier over the rationals. -/
def round1 (q : ℚ) : ℚ := (⌊q * 10 + 1 / 2⌋ : ℚ) / 10

/-- A display size: a known value in MB, or the `?` placeholder stored for
a missing size (bot.py 242, 257).  The Python code stores either a float
or the one-character string, so comparisons between the two raise. -/
inductive SizeV
| known (mb : ℚ)
| unknown
deriving DecidableEq, Repr

/-- The audio quality label `f"{abr}kbps"` or the fallback `audio`
(bot.py 256). -/
inductive AQual
| kbps (abr : ℚ)
| generic
deriving DecidableEq, Repr

def natToStr (n : ℕ) : Str := (toString n).data

def intToStr (i : ℤ) : Str := (toString i).data

/-- The video quality label (bot.py 235-239): `{height}p` or `Unknown`,
with an `@{int(fps)}fps` suffix when the frame rate exceeds 30. -/
def mkQuality (f : RawFormat) : Str :=
  let height := f.height.getD 0
  let q := if height ≠ 0 then natToStr height ++ "p".data else "Unknown".data
  let fps := f.fps.getD 0
  if fps ≠ 0 ∧ fps > 30 then q ++ "@".data ++ intToStr ⌊fps⌋ ++ "fps".data else q

/-- A classified video format entry (bot.py 244-251). -/
structure VFmt where
  id : Str
  quality : Str
  ext : Str
  size : SizeV
  vcodec : Option Str
  acodec : Option Str
deriving DecidableEq, Repr

/-- A classified audio-only format entry (bot.py 259-265). -/
structure AFmt where
  id : Str
  quality : AQual
  ext : Str
  size : SizeV
  acodec : Option Str
deriving DecidableEq, Repr

/-- The display size computed from the resolved filesize (bot.py 242). -/
def mkSizeV (filesize : Option ℚ) : SizeV :=
  if pyTruthyQ filesize then SizeV.known (round1 (filesize.getD 0 / MB)) else SizeV.unknown

/-- The partition loop of `handle_url` (bot.py 225-265): records without a
truthy format id are skipped; a record whose `vcodec` value differs from
the sentinel `none` (including a missing field) goes to the video list; a
record with `vcodec` equal to the sentinel and `acodec` different from it
goes to the audio list; everything else is dropped. -/
def collectFormats : List RawFormat → List VFmt × List AFmt
  | [] => ([], [])
  | f :: rest =>
      let tail := collectFormats rest
      if pyTruthyStr f.format_id = false then tail
      else
        let ext := f.ext.getD ("unknown".data)
        let filesize := pyOrQ f.filesize f.filesize_approx
        let sizeV := mkSizeV filesize
        if f.vcodec ≠ some noneStr then
          (⟨f.format_id.getD [], mkQuality f, ext, sizeV, f.vcodec, f.acodec⟩ :: tail.1, tail.2)
        else if f.acodec ≠ some noneStr then
          let abr := f.abr.getD 0
          let aq := if abr ≠ 0 then AQual.kbps abr else AQual.generic
          (tail.1, ⟨f.format_id.getD [], aq, ext, sizeV, f.acodec⟩ :: tail.2)
        else tail

/-- A Python `TypeError`, raised when a float size is compared with the
string placeholder. -/
inductive PyErr
| typeError
deriving DecidableEq, Repr

/-- The Python comparison `fmt['size'] > existing['size']` (bot.py 278):
two floats compare numerically, two `?` strings compare as strings
(yielding false), and a float/string mix raises `TypeError`. -/
def pyGtSize : SizeV → SizeV → Except PyErr Bool
  | SizeV.known a, SizeV.known b => .ok (decide (a > b))
  | SizeV.unknown, SizeV.unknown => .ok false
  | SizeV.known _, SizeV.unknown => .error PyErr.typeError
  | SizeV.unknown, SizeV.known _ => .error PyErr.typeError

/-- In-place update of an insertion-ordered dict entry. -/
def updateGroup : List (Str × VFmt) → Str → VFmt → List (Str × VFmt)
  | [], _, _ => []
  | (k, v) :: rest, key, fmt =>
      if k = key then (k, fmt) :: rest else (k, v) :: updateGroup rest key fmt

/-- One step of the quality-grouping loop (bot.py 275-279). -/
def groupStep (groups : List (Str × VFmt)) (fmt : VFmt) : Except PyErr (List (Str × VFmt)) :=
  match groups.lookup fmt.quality with
  | none => .ok (groups ++ [(fmt.quality, fmt)])
  | some old => do
      let b ← pyGtSize fmt.size old.size
      if b then .ok (updateGroup groups fmt.quality fmt) else .ok groups

/-- The `quality_groups` insertion-ordered dict built by the deduplication
loop of `handle_url` (bot.py 275-279), or the `TypeError` the loop raises
when a known size is compared with the `?` placeholder. -/
def qualityGroups (vfs : List VFmt) : Except PyErr (List (Str × VFmt)) :=
  vfs.foldlM groupStep []

/-- The canonical quality ladder (bot.py 283). -/
def ladderLabels : List Str :=
  ["144p".data, "240p".data, "360p".data, "480p".data,
   "720p".data, "1080p".data, "1440p".data, "2160p".data]

/-- Selection of displayed video formats (bot.py 282-291): ladder labels
that exist, else the first four groups, capped at six. -/
def selectedFormats (groups : List (Str × VFmt)) : List VFmt :=
  let sel := ladderLabels.filterMap (fun q => groups.lookup q)
  let sel := if sel.isEmpty then (groups.map Prod.snd).take 4 else sel
  sel.take 6

/-- The text of an inline keyboard button.  Literal texts are kept
verbatim; the composed video/audio labels keep their parts (quality,
upper-cased extension, optional size in MB shown to one decimal). -/
inductive BtnText
| lit (s : Str)
| videoLabel (quality ext : Str) (sizeMB : Option ℚ)
| audioLabel (q : AQual) (ext : Str) (sizeMB : Option ℚ)
deriving DecidableEq, Repr

/-- An inline keyboard button: display text and callback token. -/
structure Button where
  text : BtnText
  callback : Str
deriving DecidableEq, Repr

/-- The optional size shown on a button: present exactly when the size is
known (bot.py 293-298 — `float('?')` raises, so `?` sizes append
nothing numeric). -/
def shownSize : SizeV → Option ℚ
  | SizeV.known m => some m
  | SizeV.unknown => none

/-- A video format button (bot.py 291-299): label from quality, upper-cased
extension and optional size; callback token `v_` + format id. -/
def videoButton (fmt : VFmt) : Button :=
  ⟨BtnText.videoLabel fmt.quality (fmt.ext.map Char.toUpper) (shownSize fmt.size),
   "v_".data ++ fmt.id⟩

/-- An audio format button (bot.py 304-312): callback token `a_` + id. -/
def audioButton (fmt : AFmt) : Button :=
  ⟨BtnText.audioLabel fmt.quality (fmt.ext.map Char.toUpper) (shownSize fmt.size),
   "a_".data ++ fmt.id⟩

/-- The keyboard built by `handle_url` for a non-empty format list
(bot.py 267-329), or the `TypeError` escaping from the deduplication. -/
def buildKeyboard (vfs : List VFmt) (afs : List AFmt) (is_youtube : Bool) :
    Except PyErr (List (List Button)) := do
  let videoRows ←
    if vfs.isEmpty then pure []
    else do
      let groups ← qualityGroups vfs
      pure ([[⟨BtnText.lit ("📹 Video Formats".data), "header_video".data⟩]] ++
        (selectedFormats groups).map (fun f => [videoButton f]))
  let audioRows :=
    if afs.isEmpty then []
    else [[⟨BtnText.lit ("🎵 Audio Only".data), "header_audio".data⟩]] ++
      (afs.take 3).map (fun f => [audioButton f])
  let bestWorst :=
    if is_youtube then
      [[⟨BtnText.lit ("🏆 Try Best Quality (May Fail)".data), "best".data⟩],
       [⟨BtnText.lit ("⚡ Safe: Low Quality (Usually Works)".data), "worst".data⟩]]
    else
      [[⟨BtnText.lit ("🏆 Best Quality".data), "best".data⟩],
       [⟨BtnText.lit ("⚡ Fastest (Lowest Quality)".data), "worst".data⟩]]
  let helpRow :=
    if is_youtube then [[⟨BtnText.lit ("❓ YouTube Help".data), "youtube_help".data⟩]] else []
  pure (videoRows ++ audioRows ++ bestWorst ++ helpRow ++
    [[⟨BtnText.lit ("❌ Cancel".data), "cancel".data⟩]])

/-- The fixed audio fallback keyboard of `show_audio_options`
(bot.py 387-395), verbatim. -/
def audioFallbackKeyboard : List (List Button) :=
  [[⟨BtnText.lit ("🎵 MP3 (Best Quality)".data), "audio_mp3_best".data⟩],
   [⟨BtnText.lit ("🎵 MP3 (128kbps)".data), "audio_mp3_128".data⟩],
   [⟨BtnText.lit ("🎵 M4A/AAC".data), "audio_m4a".data⟩],
   [⟨BtnText.lit ("🎵 Opus".data), "audio_opus".data⟩],
   [⟨BtnText.lit ("❌ Cancel".data), "cancel".data⟩]]

/-- The menu presented after extraction: the fixed audio fallback menu or
the ladder-based format keyboard. -/
inductive Menu
| audioFallback (kb : List (List Button))
| ladderMenu (kb : List (List Button))
deriving DecidableEq, Repr

/-- Menu construction from the raw format list (bot.py 215-329): the audio
fallback is shown exactly when the raw list is empty (`if not formats`);
otherwise the classifier runs and builds the ladder keyboard, possibly
raising from the deduplication. -/
def classifyAndBuild (formats : List RawFormat) (is_youtube : Bool) : Except PyErr Menu :=
  if formats.isEmpty then .ok (Menu.audioFallback audioFallbackKeyboard)
  else do
    let pair := collectFormats formats
    let kb ← buildKeyboard pair.1 pair.2 is_youtube
    .ok (Menu.ladderMenu kb)

/-! ## Session store (bot.py 32, 42-46) and handle_url (bot.py 177-385) -/

/-- The extracted metadata bundle, restricted to the keys the handlers
read. -/
structure Info where
  title : Option Str := none
  duration : Option ℚ := none
  uploader : Option Str := none
  formats : Option (List RawFormat) := none
deriving DecidableEq, Repr

/-- A per-user session dict; `none` models a missing key. -/
structure Session where
  url : Option Str := none
  info : Option Info := none
  is_youtube : Option Bool := none
deriving DecidableEq, Repr

def emptySession : Session := {}

/-- The global `user_sessions` dict, as an insertion-ordered association
list keyed by user id. -/
abbrev Store := List (ℕ × Session)

/-- `get_user_session` (bot.py 42-46): inserts an empty session when the
user has none, and returns the store together with the entry. -/
def getUserSession (store : Store) (uid : ℕ) : Store × Session :=
  match store.lookup uid with
  | some s => (store, s)
  | none => (store ++ [(uid, emptySession)], emptySession)

/-- Update (or append) the entry of one user. -/
def storeSet : Store → ℕ → Session → Store
  | [], uid, s => [(uid, s)]
  | (k, v) :: rest, uid, s =>
      if k = uid then (k, s) :: rest else (k, v) :: storeSet rest uid s

/-- `del user_sessions[user_id]`. -/
def storeDelete (store : Store) (uid : ℕ) : Store :=
  store.filter (fun p => decide (p.1 ≠ uid))

/-- Python `str.strip` of whitespace characters. -/
def pyIsSpace (c : Char) : Bool :=
  c == ' ' || c == '\t' || c == '\n' || c == '\r' || c == '\x0b' || c == '\x0c'

def pyStrip (s : Str) : Str :=
  ((s.dropWhile pyIsSpace).reverse.dropWhile pyIsSpace).reverse

def pyLower (s : Str) : Str := s.map Char.toLower

/-- Python substring membership `needle in hay`. -/
def pyInStr (needle : Str) : Str → Bool
  | [] => needle.isEmpty
  | c :: rest => needle.isPrefixOf (c :: rest) || pyInStr needle rest

/-- The scheme check of `handle_url` (bot.py 182). -/
def validScheme (url : Str) : Bool :=
  ("http://".data).isPrefixOf url || ("https://".data).isPrefixOf url

/-- The blacklist check of `handle_url` (bot.py 186-188): any of the
blocked substrings inside the lowercased URL. -/
def blacklisted (url : Str) : Bool :=
  ["porn".data, "xxx".data, "adult".data].any (fun d => pyInStr d (pyLower url))

/-- The platform flag (bot.py 193), computed on the non-lowercased URL. -/
def isYoutubeUrl (url : Str) : Bool :=
  pyInStr ("youtube.com".data) url || pyInStr ("youtu.be".data) url

/-- The classified extraction failures raised by `extract_info`
(bot.py 159-175); textual matching against the engine message happens
inside that helper and is abstracted into this taxonomy. -/
inductive ExtractErr
| botDetection
| privateVideo
| membersOnly
| ageRestricted
| other (msg : Str)
deriving DecidableEq, Repr

/-- The user-visible outcome of `handle_url`. -/
inductive Reply
| invalidUrl
| notSupported
| couldNotExtract
| menuShown (m : Menu)
| botDetectionKeyboard
| privateMsg
| membersMsg
| ageMsg
| genericError
deriving DecidableEq, Repr

/-- The outcome of one `handle_url` invocation: the reply, the session
store afterwards, and whether the extractor was invoked. -/
structure HandleUrlResult where
  reply : Reply
  store : Store
  extractorCalled : Bool
deriving DecidableEq, Repr

/-- `handle_url` (bot.py 177-385).  The extractor is an oracle value: the
result it would produce if called.  Scheme and blacklist rejections return
before the oracle is consulted and leave the store untouched; on a
successful extraction the session entry is created/updated before the
menu is built, and a `TypeError` escaping the classifier is caught by the
generic handler (bot.py 383-385). -/
def handleUrl (text : Str) (uid : ℕ) (store : Store)
    (extract : Except ExtractErr (Option Info)) : HandleUrlResult :=
  let url := pyStrip text
  if validScheme url = false then ⟨Reply.invalidUrl, store, false⟩
  else if blacklisted url then ⟨Reply.notSupported, store, false⟩
  else
    let is_youtube := isYoutubeUrl url
    match extract with
    | .error ExtractErr.botDetection => ⟨Reply.botDetectionKeyboard, store, true⟩
    | .error ExtractErr.privateVideo => ⟨Reply.privateMsg, store, true⟩
    | .error ExtractErr.membersOnly => ⟨Reply.membersMsg, store, true⟩
    | .error ExtractErr.ageRestricted => ⟨Reply.ageMsg, store, true⟩
    | .error (ExtractErr.other _) => ⟨Reply.genericError, store, true⟩
    | .ok none => ⟨Reply.couldNotExtract, store, true⟩
    | .ok (some info) =>
        let pair := getUserSession store uid
        let s := pair.2
        let s' : Session := { s with url := some url, info := some info, is_youtube := some is_youtube }
        let store2 := storeSet pair.1 uid s'
        match classifyAndBuild (info.formats.getD []) is_youtube with
        | .error _ => ⟨Reply.genericError, store2, true⟩
        | .ok m => ⟨Reply.menuShown m, store2, true⟩

/-! ## Delivery gate and button_callback (bot.py 499-626) -/

/-- The Telegram free-tier ceiling, in bytes (bot.py 556). -/
def TELEGRAM_LIMIT : ℕ := 50 * 1024 * 1024

/-- The per-artifact decision of the delivery gate (bot.py 551-563):
reject with the size in MB shown to one decimal place, or accept. -/
inductive GateDecision
| accept
| reject (reportedMB : ℚ)
deriving DecidableEq, Repr

/-- `if file_size > 50 * 1024 * 1024` (bot.py 556-563): rejection is for
sizes strictly above the ceiling; the reported figure is the size in MB
formatted with `.1f`. -/
def deliveryGate (fileSize : ℕ) : GateDecision :=
  if fileSize > TELEGRAM_LIMIT then GateDecision.reject (round1 ((fileSize : ℚ) / MB))
  else GateDecision.accept

/-- Raw failures of the external download engine. -/
inductive EngineErr
| downloadError (msg : Str)
| otherError (msg : Str)
deriving DecidableEq, Repr

/-- A file found in the scratch directory: path and byte size. -/
structure Artifact where
  path : Str
  size : ℕ
deriving DecidableEq, Repr

/-- The supported container extensions (bot.py 494). -/
def supportedExts : List Str :=
  [".mp4".data, ".mkv".data, ".webm".data, ".mp3".data, ".m4a".data,
   ".opus".data, ".aac".data, ".flac".data, ".wav".data]

def hasSupportedExt (name : Str) : Bool :=
  supportedExts.any (fun e => e.isSuffixOf name)

/-- The detection signal matched against a download-stage engine failure
(bot.py 485). -/
def signInMsg : Str := "Sign in to confirm".data

/-- Failures surfaced by `download_file` (bot.py 439-440, 483-488). -/
inductive DlErr
| youtubeHelpClicked
| botDetectionDownload
| engine (e : EngineErr)
deriving DecidableEq, Repr

/-- `download_file` (bot.py 404-497): resolve the selector, run the engine
(an oracle from the request to the files it writes, or a failure), remap a
download error carrying the sign-in signal to the download-stage bot
detection error, and keep only files with a supported extension. -/
def downloadFileCore (data : Str) (is_youtube : Bool)
    (engine : DownloadRequest → Except EngineErr (List Artifact)) :
    Except DlErr (List Artifact) :=
  match resolveSelector data is_youtube with
  | .error DlSignal.youtubeHelpClicked => .error DlErr.youtubeHelpClicked
  | .ok req =>
      match engine req with
      | .error (EngineErr.downloadError m) =>
          if pyInStr signInMsg m then .error DlErr.botDetectionDownload
          else .error (DlErr.engine (EngineErr.downloadError m))
      | .error (EngineErr.otherError m) => .error (DlErr.engine (EngineErr.otherError m))
      | .ok files => .ok (files.filter (fun f => hasSupportedExt f.path))

/-- A failure of the chat transport while sending a file. -/
inductive SendErr
| sendFail (msg : Str)
deriving DecidableEq, Repr

/-- The last message shown by `button_callback`. -/
inductive BcMsg
| cancelled
| helpText
| noFileDownloaded
| complete
| botDetectionRetryKeyboard
| helpClickedNoop
| downloadFailed (msg : Str)
deriving DecidableEq, Repr

/-- The delivery loop over downloaded files (bot.py 551-583): an oversize
file yields a rejection notice and `continue`; otherwise the file is sent,
and a transport failure aborts the loop (the exception propagates to the
handler of `button_callback`).  Returns sent files, reported oversize
values, and the aborting failure if any. -/
def deliverLoop (send : Artifact → Except SendErr Unit) :
    List Artifact → List Artifact × List ℚ × Option SendErr
  | [] => ([], [], none)
  | f :: rest =>
      if f.size > TELEGRAM_LIMIT then
        let r := deliverLoop send rest
        (r.1, round1 ((f.size : ℚ) / MB) :: r.2.1, r.2.2)
      else
        match send f with
        | .error e => ([], [], some e)
        | .ok _ =>
            let r := deliverLoop send rest
            (f :: r.1, r.2.1, r.2.2)

/-- The outcome of one `button_callback` invocation. -/
structure BcResult where
  finalMsg : Option BcMsg
  uncaught : Bool
  store : Store
  tempCreated : Bool
  tempRemoved : Bool
  sent : List Artifact
  rejected : List ℚ
deriving Repr

/-- The try-block body of `button_callback` together with its exception
handlers (bot.py 539-615): first message and sent/rejected artifacts. -/
def bcBody (data : Str) (is_youtube : Bool)
    (engine : DownloadRequest → Except EngineErr (List Artifact))
    (send : Artifact → Except SendErr Unit) : BcMsg × List Artifact × List ℚ :=
  match downloadFileCore data is_youtube engine with
  | .error DlErr.botDetectionDownload => (BcMsg.botDetectionRetryKeyboard, [], [])
  | .error DlErr.youtubeHelpClicked => (BcMsg.helpClickedNoop, [], [])
  | .error (DlErr.engine (EngineErr.downloadError m)) => (BcMsg.downloadFailed (m.take 200), [], [])
  | .error (DlErr.engine (EngineErr.otherError m)) => (BcMsg.downloadFailed (m.take 200), [], [])
  | .ok files =>
      if files.isEmpty then (BcMsg.noFileDownloaded, [], [])
      else
        let r := deliverLoop send files
        match r.2.2 with
        | some (SendErr.sendFail m) => (BcMsg.downloadFailed (m.take 200), r.1, r.2.1)
        | none => (BcMsg.complete, r.1, r.2.1)

/-- `button_callback` (bot.py 499-626).  `cancel` and `youtube_help`
return before the session read; otherwise `get_user_session` runs, the
unguarded `user_session['url']` read raises `KeyError` when the key is
missing (before the scratch directory is created, so the exception escapes
the function), and else the scratch directory is created, the body runs,
and the `finally` block removes the directory and deletes the session
entry unless the callback token is `youtube_help` or `retry`. -/
def buttonCallback (uid : ℕ) (data : Str) (store : Store)
    (engine : DownloadRequest → Except EngineErr (List Artifact))
    (send : Artifact → Except SendErr Unit) : BcResult :=
  if data = "cancel".data then
    ⟨some BcMsg.cancelled, false, storeDelete store uid, false, false, [], []⟩
  else if data = "youtube_help".data then
    ⟨some BcMsg.helpText, false, store, false, false, [], []⟩
  else
    let pair := getUserSession store uid
    match pair.2.url with
    | none => ⟨none, true, pair.1, false, false, [], []⟩
    | some _url =>
        let is_youtube := pair.2.is_youtube.getD false
        let body := bcBody data is_youtube engine send
        let storeF :=
          if ((pair.1.lookup uid).isSome ∧ data ≠ "youtube_help".data ∧ data ≠ "retry".data)
          then storeDelete pair.1 uid else pair.1
        ⟨some body.1, false, storeF, true, true, body.2.1, body.2.2⟩

/-- The global error handler (bot.py 628-634): an update with a message
gets the generic unexpected-error reply. -/
inductive ErrReply
| unexpectedError
deriving DecidableEq, Repr

def errorHandler (hasMessage : Bool) : Option ErrReply :=
  if hasMessage then some ErrReply.unexpectedError else none

/-! ## Concrete inputs used by counterexamples and witnesses -/

/-- A 360p video record with no size information (neither `filesize` nor
`filesize_approx`). -/
def c3rawUnknown : RawFormat :=
  { format_id := some ("134".data), ext := some ("mp4".data),
    vcodec := some ("avc1.4d401e".data), acodec := some noneStr, height := some 360 }

/-- A 360p video record with a known 3 MiB size. -/
def c3rawKnown : RawFormat :=
  { format_id := some ("135".data), ext := some ("mp4".data),
    vcodec := some ("avc1.4d401f".data), acodec := some noneStr, height := some 360,
    filesize := some 3145728 }

/-- A record whose `vcodec` field is missing altogether, with an audio
codec present. -/
def c4raw : RawFormat :=
  { format_id := some ("18".data), ext := some ("mp4".data),
    acodec := some ("mp4a.40.2".data), height := some 360 }

/-- An audio-only record: the raw format list `[c5audioRaw]` is non-empty
but contains no video entry. -/
def c5audioRaw : RawFormat :=
  { format_id := some ("140".data), ext := some ("m4a".data),
    vcodec := some noneStr, acodec := some ("mp4a.40.2".data), abr := some 128 }

/-- The ladder-path keyboard `handle_url` builds for `[c5audioRaw]`. -/
def c5kb : List (List Button) :=
  [[⟨BtnText.lit ("🎵 Audio Only".data), "header_audio".data⟩],
   [⟨BtnText.audioLabel (AQual.kbps 128) ("M4A".data) none, "a_140".data⟩],
   [⟨BtnText.lit ("🏆 Best Quality".data), "best".data⟩],
   [⟨BtnText.lit ("⚡ Fastest (Lowest Quality)".data), "worst".data⟩],
   [⟨BtnText.lit ("❌ Cancel".data), "cancel".data⟩]]

/-- A fully populated session for user 7, as left by a successful
extraction of a YouTube URL. -/
def c7store : Store :=
  [(7, { url := some ("https://youtube.com/watch?v=abc".data),
         info := some { title := some ("vid".data) },
         is_youtube := some true })]

/-- An engine oracle whose download step fails with the YouTube sign-in
bot-detection message. -/
def c7engine : DownloadRequest → Except EngineErr (List Artifact) :=
  fun _ => .error (EngineErr.downloadError ("ERROR: Sign in to confirm that you are not a bot".data))

/-- A transport oracle that always delivers. -/
def sendAlwaysOk : Artifact → Except SendErr Unit := fun _ => .ok ()

/-- An engine oracle that downloads nothing. -/
def engineNone : DownloadRequest → Except EngineErr (List Artifact) := fun _ => .ok []

end Bot

/-! ## Claim theorems -/

/-- Claim C1: a selector token built by the classifier from a concrete
format identifier (`v_` or `a_` followed by the identifier) resolves,
through the pure resolver of the download orchestrator embedded from
`download_file`, to a download request whose target format expression is
exactly the originating format identifier; no extractor query is involved
since the resolver is a pure function of token and platform flag. -/
theorem claim1_selector_round_trip (id : Bot.Str) (yt : Bool) :
    Bot.resolveSelector ("v_".data ++ id) yt = .ok ⟨some id, [], yt⟩ ∧
    Bot.resolveSelector ("a_".data ++ id) yt = .ok ⟨some id, [], yt⟩ := by
  constructor <;>
    simp [Bot.resolveSelector, List.isPrefixOf, String.data]

/-- Claim C6: with the YouTube platform flag set, the token `best`
resolves to the bounded-height composite expression rather than the
unrestricted `best`; without the flag it resolves to the unrestricted
`best`. -/
theorem claim6_best_youtube_guard :
    Bot.resolveSelector ("best".data) true = .ok ⟨some Bot.ytCappedExpr, [], true⟩ ∧
    Bot.ytCappedExpr ≠ "best".data ∧
    Bot.resolveSelector ("best".data) false = .ok ⟨some ("best".data), [], false⟩ := by
  refine ⟨by rfl, by decide, by rfl⟩

/-- Helper: rounding a rational to one decimal place moves it by at most
one tenth. -/
theorem round1_abs_le (q : ℚ) : |Bot.round1 q - q| ≤ 1 / 10 := by
  have h1 := Int.floor_le (q * 10 + 1 / 2)
  have h2 := Int.lt_floor_add_one (q * 10 + 1 / 2)
  rw [Bot.round1, abs_le]
  constructor <;> linarith

/-- Claim C2 counterexample: an artifact of exactly 50 × 1024 × 1024
bytes is accepted by the delivery gate (the code rejects only strictly
larger files), refuting the claim that it is rejected. -/
theorem claim2_counterexample :
    Bot.deliveryGate (50 * 1024 * 1024) = Bot.GateDecision.accept := by decide

/-- Claim C2 (amended): the delivery gate rejects exactly the artifacts
strictly larger than 50 × 1024 × 1024 bytes, reporting the size in MB
within 0.1 of the true value, and accepts every artifact at or below the
ceiling — in particular one of exactly 50 × 1024 × 1024 bytes. -/
theorem claim2_gate_amended (n : ℕ) :
    (Bot.TELEGRAM_LIMIT < n →
      Bot.deliveryGate n = Bot.GateDecision.reject (Bot.round1 ((n : ℚ) / Bot.MB)) ∧
      |Bot.round1 ((n : ℚ) / Bot.MB) - (n : ℚ) / Bot.MB| ≤ 1 / 10) ∧
    (n ≤ Bot.TELEGRAM_LIMIT → Bot.deliveryGate n = Bot.GateDecision.accept) := by
  constructor
  · intro h
    refine ⟨?_, round1_abs_le _⟩
    rw [Bot.deliveryGate, if_pos h]
  · intro h
    rw [Bot.deliveryGate, if_neg (by omega)]

/-- Claim C2 witness: a 60 MiB artifact is rejected with the exact figure
60.0 MB, and a 1000-byte artifact is accepted. -/
theorem claim2_gate_amended_witness :
    (Bot.deliveryGate 62914560 = Bot.GateDecision.reject (Bot.round1 ((62914560 : ℚ) / Bot.MB)) ∧
      |Bot.round1 ((62914560 : ℚ) / Bot.MB) - (62914560 : ℚ) / Bot.MB| ≤ 1 / 10) ∧
    Bot.deliveryGate 1000 = Bot.GateDecision.accept :=
  ⟨(claim2_gate_amended 62914560).1 (by decide), (claim2_gate_amended 1000).2 (by decide)⟩

/-- Claim C3 (code bug): on a raw format list whose 360p group mixes an
unknown-size record and a known-size record, the deduplication loop
compares the stored float with the string placeholder and raises
`TypeError` instead of treating the unknown size as 0; the whole menu
construction then fails with that error (caught by the generic handler). -/
theorem claim3_dedup_typeerror :
    Bot.qualityGroups (Bot.collectFormats [Bot.c3rawUnknown, Bot.c3rawKnown]).1 =
      .error Bot.PyErr.typeError ∧
    Bot.classifyAndBuild [Bot.c3rawUnknown, Bot.c3rawKnown] false = .error Bot.PyErr.typeError :=
  ⟨by rfl, by rfl⟩

/-- Claim C4 counterexample: a record whose video-codec field is missing
altogether is classified as a video format (Python `None != 'none'` is
true), refuting the claim that an absent video codec is never video. -/
theorem claim4_counterexample :
    Bot.c4raw.vcodec = none ∧
    Bot.collectFormats [Bot.c4raw] =
      ([⟨"18".data, "360p".data, "mp4".data, Bot.SizeV.unknown, none, some ("mp4a.40.2".data)⟩],
       []) :=
  ⟨by rfl, by rfl⟩

/-- Claim C4 (amended): among records with a truthy format id, one whose
`vcodec` value differs from the sentinel string `none` — including a
missing field — is classified as video; one with `vcodec` equal to the
sentinel and `acodec` different from it (or missing) is audio-only; one
with both equal to the sentinel is discarded. -/
theorem claim4_partition_amended (f : Bot.RawFormat)
    (hid : Bot.pyTruthyStr f.format_id = true) :
    (f.vcodec ≠ some Bot.noneStr →
      (Bot.collectFormats [f]).1.length = 1 ∧ (Bot.collectFormats [f]).2 = []) ∧
    (f.vcodec = some Bot.noneStr → f.acodec ≠ some Bot.noneStr →
      (Bot.collectFormats [f]).1 = [] ∧ (Bot.collectFormats [f]).2.length = 1) ∧
    (f.vcodec = some Bot.noneStr → f.acodec = some Bot.noneStr →
      Bot.collectFormats [f] = ([], [])) := by
  refine ⟨fun hv => ?_, fun hv ha => ?_, fun hv ha => ?_⟩
  · simp [Bot.collectFormats, hid, hv]
  · simp [Bot.collectFormats, hid, hv, ha]
  · simp [Bot.collectFormats, hid, hv, ha]

/-- Claim C4 witness: the record with the missing `vcodec` field has a
truthy id, a non-sentinel video codec value, and lands in the video list. -/
theorem claim4_partition_amended_witness :
    Bot.pyTruthyStr Bot.c4raw.format_id = true ∧ Bot.c4raw.vcodec ≠ some Bot.noneStr ∧
    ((Bot.collectFormats [Bot.c4raw]).1.length = 1 ∧ (Bot.collectFormats [Bot.c4raw]).2 = []) :=
  ⟨by decide, by decide, (claim4_partition_amended Bot.c4raw (by decide)).1 (by decide)⟩

/-- Claim C5 counterexample: a non-empty raw format list with no video
entries (one audio-only record) takes the ladder path, not the fixed
4-entry audio fallback menu — the fallback is keyed on the list being
empty, not on the absence of video entries. -/
theorem claim5_counterexample :
    (Bot.collectFormats [Bot.c5audioRaw]).1 = [] ∧
    Bot.classifyAndBuild [Bot.c5audioRaw] false = .ok (Bot.Menu.ladderMenu Bot.c5kb) ∧
    Bot.classifyAndBuild [Bot.c5audioRaw] false ≠
      .ok (Bot.Menu.audioFallback Bot.audioFallbackKeyboard) := by
  refine ⟨by rfl, by rfl, ?_⟩
  intro h
  have h2 : Bot.classifyAndBuild [Bot.c5audioRaw] false = .ok (Bot.Menu.ladderMenu Bot.c5kb) := by rfl
  rw [h2] at h
  simp at h

/-- Claim C5 (amended): exactly when the raw format list is empty, the
system presents the fixed 4-entry audio fallback menu (best-effort MP3,
128 kbps MP3, M4A, Opus, plus the cancel row) verbatim. -/
theorem claim5_empty_fallback_amended (yt : Bool) :
    Bot.classifyAndBuild [] yt = .ok (Bot.Menu.audioFallback Bot.audioFallbackKeyboard) ∧
    Bot.audioFallbackKeyboard =
      [[⟨Bot.BtnText.lit ("🎵 MP3 (Best Quality)".data), "audio_mp3_best".data⟩],
       [⟨Bot.BtnText.lit ("🎵 MP3 (128kbps)".data), "audio_mp3_128".data⟩],
       [⟨Bot.BtnText.lit ("🎵 M4A/AAC".data), "audio_m4a".data⟩],
       [⟨Bot.BtnText.lit ("🎵 Opus".data), "audio_opus".data⟩],
       [⟨Bot.BtnText.lit ("❌ Cancel".data), "cancel".data⟩]] := by
  cases yt <;> exact ⟨rfl, rfl⟩

/-- Claim C7 (code bug): after a download-stage bot-detection failure the
retry keyboard is shown, yet the `finally` block deletes the session entry
(the callback token `best` is not in the `['youtube_help', 'retry']`
guard), contradicting the comment "Clear user session (unless we're
showing retry options)" and leaving the retry button without a session. -/
theorem claim7_session_cleared :
    (Bot.buttonCallback 7 ("best".data) Bot.c7store Bot.c7engine Bot.sendAlwaysOk).finalMsg =
      some Bot.BcMsg.botDetectionRetryKeyboard ∧
    (Bot.buttonCallback 7 ("best".data) Bot.c7store Bot.c7engine Bot.sendAlwaysOk).store = [] ∧
    (Bot.c7store.lookup 7).isSome = true :=
  ⟨by rfl, by rfl, by rfl⟩

/-- Claim C8: in every invocation of `button_callback`, whenever the
scratch directory is created it is also removed — the `finally` block runs
on every exit path of the try block (successful delivery, no files,
oversize rejections, download failures, and transport failures), for every
engine and transport behaviour. -/
theorem claim8_scratch_cleanup (uid : ℕ) (data : Bot.Str) (store : Bot.Store)
    (engine : Bot.DownloadRequest → Except Bot.EngineErr (List Bot.Artifact))
    (send : Bot.Artifact → Except Bot.SendErr Unit) :
    (Bot.buttonCallback uid data store engine send).tempRemoved =
      (Bot.buttonCallback uid data store engine send).tempCreated := by
  unfold Bot.buttonCallback
  by_cases h1 : data = "cancel".data
  · simp [h1]
  · by_cases h2 : data = "youtube_help".data
    · simp [h1, h2]
    · cases h : (Bot.getUserSession store uid).2.url <;> simp [h1, h2, h]

/-- Claim C9: a text message whose stripped form carries a valid scheme
but whose lowercased form contains a blacklisted substring is answered
with the not-supported reply; the handler returns before consulting the
extractor and the session store is unchanged. -/
theorem claim9_blacklist (text : Bot.Str) (uid : ℕ) (store : Bot.Store)
    (ex : Except Bot.ExtractErr (Option Bot.Info))
    (hs : Bot.validScheme (Bot.pyStrip text) = true)
    (hb : Bot.blacklisted (Bot.pyStrip text) = true) :
    Bot.handleUrl text uid store ex = ⟨Bot.Reply.notSupported, store, false⟩ := by
  unfold Bot.handleUrl
  simp [hs, hb]

/-- Claim C9 witness: a URL containing `adult` is blocked with the store
untouched and the extractor unused. -/
theorem claim9_blacklist_witness :
    Bot.validScheme (Bot.pyStrip ("https://example.com/adult-videos".data)) = true ∧
    Bot.blacklisted (Bot.pyStrip ("https://example.com/adult-videos".data)) = true ∧
    Bot.handleUrl ("https://example.com/adult-videos".data) 5 [] (.ok none) =
      ⟨Bot.Reply.notSupported, [], false⟩ :=
  ⟨by decide, by decide, claim9_blacklist _ 5 [] _ (by decide) (by decide)⟩

/-- Helper: appending a fresh entry to a store that lacks the key makes
lookup find it. -/
theorem storeLookupAppend (store : Bot.Store) (uid : ℕ) (s : Bot.Session)
    (h : store.lookup uid = none) :
    (store ++ [(uid, s)]).lookup uid = some s := by
  induction store with
  | nil => simp [List.lookup]
  | cons p t ih =>
      obtain ⟨k, v⟩ := p
      by_cases he : uid = k
      · subst he
        rw [List.lookup, beq_self_eq_true] at h
        exact Option.noConfusion h
      · have hb : (uid == k) = false := beq_eq_false_iff_ne.mpr he
        rw [List.cons_append, List.lookup, hb]
        rw [List.lookup, hb] at h
        exact ih h

/-- Claim C10: a format-selection callback (token neither `cancel` nor
`youtube_help`) from a user with no stored session first inserts an empty
session entry, then the unguarded `user_session['url']` read raises before
any download or scratch-directory creation; the exception escapes to the
global error handler (generic unexpected-error reply) and the empty entry
stays in the store. -/
theorem claim10_missing_session (uid : ℕ) (data : Bot.Str) (store : Bot.Store)
    (engine : Bot.DownloadRequest → Except Bot.EngineErr (List Bot.Artifact))
    (send : Bot.Artifact → Except Bot.SendErr Unit)
    (h1 : data ≠ "cancel".data) (h2 : data ≠ "youtube_help".data)
    (h3 : store.lookup uid = none) :
    Bot.buttonCallback uid data store engine send =
      ⟨none, true, store ++ [(uid, Bot.emptySession)], false, false, [], []⟩ ∧
    (store ++ [(uid, Bot.emptySession)]).lookup uid = some Bot.emptySession ∧
    Bot.errorHandler true = some Bot.ErrReply.unexpectedError := by
  refine ⟨?_, storeLookupAppend store uid _ h3, rfl⟩
  unfold Bot.buttonCallback
  rw [if_neg h1, if_neg h2]
  unfold Bot.getUserSession
  rw [h3]
  rfl

/-- Claim C10 witness: user 3 with an empty store sends token `best`; the
call leaves the empty session entry and escapes to the error handler. -/
theorem claim10_missing_session_witness :
    ("best".data ≠ "cancel".data ∧ "best".data ≠ "youtube_help".data ∧
      ([] : Bot.Store).lookup 3 = none) ∧
    (Bot.buttonCallback 3 ("best".data) [] Bot.engineNone Bot.sendAlwaysOk =
      ⟨none, true, [] ++ [(3, Bot.emptySession)], false, false, [], []⟩ ∧
    (([] : Bot.Store) ++ [(3, Bot.emptySession)]).lookup 3 = some Bot.emptySession ∧
    Bot.errorHandler true = some Bot.ErrReply.unexpectedError) :=
  ⟨⟨by decide, by decide, by rfl⟩,
   claim10_missing_session 3 ("best".data) [] Bot.engineNone Bot.sendAlwaysOk
     (by decide) (by decide) (by rfl)⟩
